import Mathlib

/-!
Verification of the SCSS-watcher component (`src/_includes/sass-watch.js`).

The script is event-driven Node.js code.  We embed it as a small operational
semantics:

* a `Path` is a list of segments; `dirname` drops the last segment
  (models `path.dirname`);
* `FS` is the filesystem: the set of existing directories and an association
  list from file paths to contents;
* `sass.renderSync` is modelled by `renderSync`: it reads the root source
  file and applies an abstract compile function `Env.render` (a parameter of
  the model standing for the node-sass compiler; `none` models a syntax
  error, in which case `renderSync` throws synchronously);
* `fs.writeFile` and `fs.mkdir` are asynchronous: calling them only queues an
  `AsyncOp`; the operation itself and its completion callback run later, when
  the event loop picks the pending operation.  Node does not guarantee a
  completion order between distinct pending fs operations (they run on a
  thread pool), so the driver `Act.run i` may complete any pending operation;
  `drain` is the canonical first-in-first-out schedule;
* a `throw` inside an asynchronous completion callback is an uncaught
  exception: it sets `St.crashed`, after which the event loop processes
  nothing further (the Node process terminates);
* `Act.deliver` models `fs.watch` delivering a change notification to the
  registered callback, and `Act.extWrite` models the external world (an
  editor) changing a file in the watched directory.

Observable behaviour (`console.log` lines, compile invocations, write
attempts) is recorded in the trace `St.log`.
-/

namespace SassWatch

/-- A filesystem path, as a list of segments (`["dist", "styles.css"]`). -/
abbrev Path := List String

/-- Models `path.dirname`: the parent of a path. -/
def dirname (p : Path) : Path := p.dropLast

/-- The filesystem: existing directories and file contents. -/
structure FS where
  dirs : List Path
  files : List (Path × String)
deriving Repr, DecidableEq

/-- Models `fs.existsSync` on a directory; the root `[]` always exists. -/
def dirExists (fs : FS) (d : Path) : Bool :=
  decide (d = []) || fs.dirs.contains d

/-- Read a file's content, `none` when absent. -/
def readFileContent (fs : FS) (p : Path) : Option String :=
  (fs.files.find? (fun e => decide (e.1 = p))).map (fun e => e.2)

/-- Overwrite (or create) the file at `p` with content `c`. -/
def writeFileContent (fs : FS) (p : Path) (c : String) : FS :=
  { fs with files := (p, c) :: fs.files.filter (fun e => decide (¬ e.1 = p)) }

/-- All the directories `mkdir -p d` brings into existence:
the nonempty initial segments of `d`. -/
def initSegs (d : Path) : List Path :=
  (List.range d.length).map (fun i => d.take (i + 1))

/-- Model parameters: the node-sass compiler (a pure function of the root
source text; `none` models a syntax error) and whether the operating system
lets `fs.mkdir` succeed. -/
structure Env where
  render : String → Option String
  mkdirOk : Bool

/-- Models `sass.renderSync` on a file: reads the file and compiles it; an error is
thrown synchronously to the caller. -/
def renderSync (env : Env) (fs : FS) (file : Path) : Except String String :=
  match readFileContent fs file with
  | none => Except.error "File to read not found or unreadable"
  | some src =>
    match env.render src with
    | none => Except.error "Invalid CSS"
    | some css => Except.ok css

/-- A pending asynchronous filesystem operation together with its completion
callback (the callbacks are the fixed lambdas of the source). -/
inductive AsyncOp where
  | mkdirOp (d : Path) (scssPath cssPath : Path)
  | writeOp (cssPath : Path) (content : String)
deriving Repr, DecidableEq

/-- Observable events: compile invocations, log lines, write attempts. -/
inductive Ev where
  | compileCall (scssPath cssPath : Path)
  | writeSubmitted (cssPath : Path) (parentExists : Bool)
  | writeExec (cssPath : Path) (parentExists : Bool)
  | fileSaved (cssPath : Path)
  | dirCreating (d : Path)
  | dirCreated
  | watchSubscribed (d : Path)
  | changeLogged (d : Path) (filename : String)
deriving Repr, DecidableEq

/-- The state of the running process and its world: the filesystem, the
pending asynchronous operations, the event trace, the active `fs.watch`
subscription (with the paths its callback closes over), and whether an
uncaught exception has terminated the event loop. -/
structure St where
  fs : FS
  pending : List AsyncOp
  log : List Ev
  watcher : Option (Path × Path)
  crashed : Option String
deriving Repr, DecidableEq

/-- The initial state over a given filesystem. -/
def initSt (fs : FS) : St :=
  { fs := fs, pending := [], log := [], watcher := none, crashed := none }

/-- Models `generateCSS`: renders the source synchronously (a render error is
thrown to the caller, returned as `some err`), then submits the
asynchronous `fs.writeFile` of the rendered text. -/
def generateCSS (env : Env) (scssPath cssPath : Path) (s : St) : St × Option String :=
  match renderSync env s.fs scssPath with
  | Except.error e =>
    ({ s with log := s.log ++ [Ev.compileCall scssPath cssPath] }, some e)
  | Except.ok css =>
    ({ s with
        pending := s.pending ++ [AsyncOp.writeOp cssPath css],
        log := s.log ++ [Ev.compileCall scssPath cssPath,
                         Ev.writeSubmitted cssPath (dirExists s.fs (dirname cssPath))] },
      none)

/-- The synchronous body of `module.exports`: if the output directory is
missing, log and submit the asynchronous `fs.mkdir`; then (unconditionally)
call `generateCSS`; if that throws, the exception propagates out and
`fs.watch` is never reached; otherwise subscribe to the source directory. -/
def sassWatch (env : Env) (scssPath cssPath : Path) (s : St) : St × Option String :=
  match generateCSS env scssPath cssPath
      (if dirExists s.fs (dirname cssPath) then s
       else
         { s with
             log := s.log ++ [Ev.dirCreating (dirname cssPath)],
             pending := s.pending ++ [AsyncOp.mkdirOp (dirname cssPath) scssPath cssPath] }) with
  | (s2, some e) => (s2, some e)
  | (s2, none) =>
    ({ s2 with
        watcher := some (scssPath, cssPath),
        log := s2.log ++ [Ev.watchSubscribed (dirname scssPath)] },
      none)

/-- The event loop completes one pending asynchronous operation: performs
the filesystem effect, then runs the completion callback.  A `throw` in the
callback is uncaught and sets `crashed`. -/
def execOp (env : Env) (op : AsyncOp) (s : St) : St :=
  match op with
  | AsyncOp.mkdirOp d scssPath cssPath =>
    if env.mkdirOk then
      match generateCSS env scssPath cssPath
          { s with
              fs := { s.fs with dirs := initSegs d ++ s.fs.dirs },
              log := s.log ++ [Ev.dirCreated] } with
      | (s2, some e) => { s2 with crashed := some e }
      | (s2, none) => s2
    else
      { s with crashed := some "mkdirErr" }
  | AsyncOp.writeOp cssPath content =>
    if dirExists s.fs (dirname cssPath) then
      { s with
          fs := writeFileContent s.fs cssPath content,
          log := s.log ++ [Ev.writeExec cssPath true, Ev.fileSaved cssPath] }
    else
      { s with
          log := s.log ++ [Ev.writeExec cssPath false],
          crashed := some "writeErr" }

/-- One step of the world: the event loop completes the pending operation
at index `i`; or the watcher delivers a change notification (any event
type, any filename) to the registered callback; or the external world
writes a file.  A crashed process completes and delivers nothing, but the
external world keeps going. -/
inductive Act where
  | run (i : Nat)
  | deliver (evType filename : String)
  | extWrite (p : Path) (c : String)
deriving Repr, DecidableEq

/-- Whether a step is an action of the component's own process (as opposed
to an external file edit). -/
def Act.isProcess : Act → Bool
  | Act.run _ => true
  | Act.deliver _ _ => true
  | Act.extWrite _ _ => false

/-- Small-step semantics of the world. -/
def stepAct (env : Env) (a : Act) (s : St) : St :=
  match a with
  | Act.extWrite p c => { s with fs := writeFileContent s.fs p c }
  | Act.run i =>
    if s.crashed.isSome then s
    else
      match s.pending[i]? with
      | none => s
      | some op => execOp env op { s with pending := s.pending.eraseIdx i }
  | Act.deliver _evType filename =>
    if s.crashed.isSome then s
    else
      match s.watcher with
      | none => s
      | some (scssPath, cssPath) =>
        match generateCSS env scssPath cssPath
            { s with log := s.log ++ [Ev.changeLogged (dirname scssPath) filename] } with
        | (s2, some e) => { s2 with crashed := some e }
        | (s2, none) => s2

/-- Run a list of steps. -/
def runActs (env : Env) (acts : List Act) (s : St) : St :=
  acts.foldl (fun t a => stepAct env a t) s

/-- The canonical first-in-first-out event-loop schedule: repeatedly
complete the oldest pending operation. -/
def drain (env : Env) : Nat → St → St
  | 0, s => s
  | n + 1, s => drain env n (stepAct env (Act.run 0) s)

/-- The compile invocations recorded in a trace, oldest first. -/
def compileCallsOf (l : List Ev) : List (Path × Path) :=
  l.filterMap (fun e =>
    match e with
    | Ev.compileCall p q => some (p, q)
    | _ => none)

/-! ### Concrete fixtures (used by witnesses and counterexamples)

`envA` is an environment whose compiler accepts everything except the
content `"bad("` (a syntax error) and otherwise returns the source itself;
`fsA` has the output directory `dist` present, `fsB` has it missing,
`fsBad` has a source file with a syntax error. -/

def scssP : Path := ["src", "styles.scss"]

def cssP : Path := ["dist", "styles.css"]

def envA : Env :=
  { render := fun src => if src = "bad(" then none else some src, mkdirOk := true }

def envNoMkdir : Env :=
  { render := fun src => some src, mkdirOk := false }

def fsA : FS := { dirs := [["src"], ["dist"]], files := [(scssP, "body color red")] }

def fsB : FS := { dirs := [["src"]], files := [(scssP, "body color red")] }

def fsBad : FS := { dirs := [["src"], ["dist"]], files := [(scssP, "bad(")] }

/-! ### Basic lemmas about the filesystem model -/

theorem renderSync_dirs (env : Env) (fs : FS) (ds : List Path) (p : Path) :
    renderSync env { fs with dirs := ds } p = renderSync env fs p := rfl

theorem dirExists_write (fs : FS) (q : Path) (c : String) (d : Path) :
    dirExists (writeFileContent fs q c) d = dirExists fs d := rfl

theorem writeFileContent_dirs (fs : FS) (q : Path) (c : String) :
    (writeFileContent fs q c).dirs = fs.dirs := rfl

theorem readFileContent_write_self (fs : FS) (p : Path) (c : String) :
    readFileContent (writeFileContent fs p c) p = some c := by
  simp [readFileContent, writeFileContent]

theorem find?_filter_ne (l : List (Path × String)) (p q : Path) (h : p ≠ q) :
    (l.filter (fun e => decide (¬ e.1 = q))).find? (fun e => decide (e.1 = p)) =
      l.find? (fun e => decide (e.1 = p)) := by
  induction l with
  | nil => rfl
  | cons a t ih =>
    by_cases ha : a.1 = q
    · have h1 : ¬ (fun (e : Path × String) => decide (¬ e.1 = q)) a = true := by simp [ha]
      have h2 : ¬ (fun (e : Path × String) => decide (e.1 = p)) a = true := by
        simp only [decide_eq_true_eq]
        exact fun hpp => h (hpp.symm.trans ha)
      rw [@List.filter_cons_of_neg _ _ a t h1, @List.find?_cons_of_neg _ _ a t h2, ih]
    · have h1 : (fun (e : Path × String) => decide (¬ e.1 = q)) a = true := by simp [ha]
      by_cases hp : a.1 = p
      · have h2 : (fun (e : Path × String) => decide (e.1 = p)) a = true := by simp [hp]
        rw [@List.filter_cons_of_pos _ _ a t h1, @List.find?_cons_of_pos _ _ a _ h2,
          @List.find?_cons_of_pos _ _ a t h2]
      · have h2 : ¬ (fun (e : Path × String) => decide (e.1 = p)) a = true := by simp [hp]
        rw [@List.filter_cons_of_pos _ _ a t h1, @List.find?_cons_of_neg _ _ a _ h2,
          @List.find?_cons_of_neg _ _ a t h2, ih]

theorem readFileContent_write_ne (fs : FS) (p q : Path) (c : String) (h : p ≠ q) :
    readFileContent (writeFileContent fs q c) p = readFileContent fs p := by
  have hq : ¬ q = p := fun hqp => h hqp.symm
  simp only [readFileContent, writeFileContent, List.find?_cons, hq, decide_eq_true_eq,
    decide_False]
  rw [find?_filter_ne fs.files p q h]

/-! ### Characterisation of `generateCSS` -/

theorem generateCSS_error (env : Env) (scss css : Path) (s : St) (e : String)
    (h : renderSync env s.fs scss = Except.error e) :
    generateCSS env scss css s =
      ({ s with log := s.log ++ [Ev.compileCall scss css] }, some e) := by
  unfold generateCSS
  rw [h]

theorem generateCSS_ok (env : Env) (scss css : Path) (s : St) (c : String)
    (h : renderSync env s.fs scss = Except.ok c) :
    generateCSS env scss css s =
      ({ s with
          pending := s.pending ++ [AsyncOp.writeOp css c],
          log := s.log ++ [Ev.compileCall scss css,
                           Ev.writeSubmitted css (dirExists s.fs (dirname css))] },
        none) := by
  unfold generateCSS
  rw [h]

theorem generateCSS_fst_fs (env : Env) (scss css : Path) (s : St) :
    ((generateCSS env scss css s).1).fs = s.fs := by
  unfold generateCSS
  cases renderSync env s.fs scss <;> rfl

theorem generateCSS_fst_watcher (env : Env) (scss css : Path) (s : St) :
    ((generateCSS env scss css s).1).watcher = s.watcher := by
  unfold generateCSS
  cases renderSync env s.fs scss <;> rfl

theorem generateCSS_fst_crashed (env : Env) (scss css : Path) (s : St) :
    ((generateCSS env scss css s).1).crashed = s.crashed := by
  unfold generateCSS
  cases renderSync env s.fs scss <;> rfl

/-! ### Trace lemmas -/

theorem compileCallsOf_append (l m : List Ev) :
    compileCallsOf (l ++ m) = compileCallsOf l ++ compileCallsOf m := by
  simp [compileCallsOf]

/-! ### Directories are never removed -/

theorem dirs_mono_execOp (env : Env) (op : AsyncOp) (s : St) :
    s.fs.dirs ⊆ (execOp env op s).fs.dirs := by
  cases op with
  | mkdirOp d a b =>
    simp only [execOp]
    split
    · split
      next s2 e hg =>
        have hfs := generateCSS_fst_fs env a b
          { s with
              fs := { s.fs with dirs := initSegs d ++ s.fs.dirs },
              log := s.log ++ [Ev.dirCreated] }
        rw [hg] at hfs
        show s.fs.dirs ⊆ s2.fs.dirs
        rw [hfs]
        exact List.subset_append_right _ _
      next s2 hg =>
        have hfs := generateCSS_fst_fs env a b
          { s with
              fs := { s.fs with dirs := initSegs d ++ s.fs.dirs },
              log := s.log ++ [Ev.dirCreated] }
        rw [hg] at hfs
        show s.fs.dirs ⊆ s2.fs.dirs
        rw [hfs]
        exact List.subset_append_right _ _
    · exact List.Subset.refl _
  | writeOp p c =>
    simp only [execOp]
    split
    · show s.fs.dirs ⊆ (writeFileContent s.fs p c).dirs
      exact List.Subset.refl _
    · exact List.Subset.refl _

theorem dirs_mono_stepAct (env : Env) (a : Act) (s : St) :
    s.fs.dirs ⊆ (stepAct env a s).fs.dirs := by
  cases a with
  | extWrite p c =>
    show s.fs.dirs ⊆ (writeFileContent s.fs p c).dirs
    exact List.Subset.refl _
  | run i =>
    simp only [stepAct]
    split
    · exact List.Subset.refl _
    · split
      · exact List.Subset.refl _
      next op hop =>
        exact dirs_mono_execOp env op { s with pending := s.pending.eraseIdx i }
  | deliver t fn =>
    simp only [stepAct]
    split
    · exact List.Subset.refl _
    · split
      · exact List.Subset.refl _
      next a b hw =>
        split
        next s2 e hg =>
          have hfs := generateCSS_fst_fs env a b
            { s with log := s.log ++ [Ev.changeLogged (dirname a) fn] }
          rw [hg] at hfs
          show s.fs.dirs ⊆ s2.fs.dirs
          rw [hfs]
          exact List.Subset.refl _
        next s2 hg =>
          have hfs := generateCSS_fst_fs env a b
            { s with log := s.log ++ [Ev.changeLogged (dirname a) fn] }
          rw [hg] at hfs
          show s.fs.dirs ⊆ s2.fs.dirs
          rw [hfs]
          exact List.Subset.refl _

theorem dirs_mono_drain (env : Env) (n : Nat) (s : St) :
    s.fs.dirs ⊆ (drain env n s).fs.dirs := by
  induction n generalizing s with
  | zero => exact List.Subset.refl _
  | succ k ih =>
    exact List.Subset.trans (dirs_mono_stepAct env (Act.run 0) s) (ih _)

/-! ### The effect of one complete compile -/

/-- A successful `generateCSS` from a quiescent state, followed by the
completion of the write it submitted, produces exactly the rendered text at
the output path, throws nothing, and crashes nothing. -/
theorem compile_drain_spec (env : Env) (fs : FS) (scss css : Path) (src out : String)
    (h1 : readFileContent fs scss = some src)
    (h2 : env.render src = some out)
    (h3 : dirExists fs (dirname css) = true) :
    (generateCSS env scss css (initSt fs)).2 = none ∧
    (drain env 1 (generateCSS env scss css (initSt fs)).1).fs = writeFileContent fs css out ∧
    (drain env 1 (generateCSS env scss css (initSt fs)).1).crashed = none := by
  have hr : renderSync env (initSt fs).fs scss = Except.ok out := by
    show renderSync env fs scss = Except.ok out
    unfold renderSync
    rw [h1]
    show (match env.render src with
      | none => Except.error "Invalid CSS"
      | some css => Except.ok css) = Except.ok out
    rw [h2]
  rw [generateCSS_ok env scss css (initSt fs) out hr]
  refine ⟨rfl, ?_, ?_⟩ <;> simp [drain, stepAct, execOp, initSt, h3]

/-- C1: for a valid source, `generateCSS` renders it and writes the result
to the output path, overwriting whatever was there, leaving a non-empty
compiled stylesheet (exactly the compiler's output for the source). -/
theorem c1_compile_writes_output (env : Env) (fs : FS) (scss css : Path) (src out : String)
    (h1 : readFileContent fs scss = some src)
    (h2 : env.render src = some out)
    (h3 : dirExists fs (dirname css) = true)
    (h4 : out ≠ "") :
    (generateCSS env scss css (initSt fs)).2 = none ∧
    readFileContent (drain env 1 (generateCSS env scss css (initSt fs)).1).fs css = some out ∧
    out ≠ "" ∧
    (drain env 1 (generateCSS env scss css (initSt fs)).1).crashed = none := by
  obtain ⟨ha, hb, hc⟩ := compile_drain_spec env fs scss css src out h1 h2 h3
  refine ⟨ha, ?_, h4, hc⟩
  rw [hb]
  exact readFileContent_write_self fs css out

/-- Witness for C1 at a concrete valid stylesheet. -/
theorem c1_compile_writes_output_w :
    (generateCSS envA scssP cssP (initSt fsA)).2 = none ∧
    readFileContent (drain envA 1 (generateCSS envA scssP cssP (initSt fsA)).1).fs cssP =
      some "body color red" ∧
    "body color red" ≠ "" ∧
    (drain envA 1 (generateCSS envA scssP cssP (initSt fsA)).1).crashed = none :=
  c1_compile_writes_output envA fsA scssP cssP "body color red" "body color red"
    (by decide) (by decide) (by decide) (by decide)

/-- C2: when the source has a syntax error, `generateCSS` throws the render
error to its caller before `fs.writeFile` is ever invoked: the filesystem is
untouched, the output path's content is unchanged, and no write is queued. -/
theorem c2_syntax_error_no_write (env : Env) (scss css : Path) (s : St) (src : String)
    (h1 : readFileContent s.fs scss = some src)
    (h2 : env.render src = none) :
    (generateCSS env scss css s).2 = some "Invalid CSS" ∧
    (generateCSS env scss css s).1.fs = s.fs ∧
    readFileContent (generateCSS env scss css s).1.fs css = readFileContent s.fs css ∧
    (generateCSS env scss css s).1.pending = s.pending := by
  have hr : renderSync env s.fs scss = Except.error "Invalid CSS" := by
    unfold renderSync
    rw [h1]
    show (match env.render src with
      | none => Except.error "Invalid CSS"
      | some css => Except.ok css) = Except.error "Invalid CSS"
    rw [h2]
  rw [generateCSS_error env scss css s _ hr]
  exact ⟨rfl, rfl, rfl, rfl⟩

/-- Witness for C2 at a concrete source with a syntax error. -/
theorem c2_syntax_error_no_write_w :
    (generateCSS envA scssP cssP (initSt fsBad)).2 = some "Invalid CSS" ∧
    (generateCSS envA scssP cssP (initSt fsBad)).1.fs = (initSt fsBad).fs ∧
    readFileContent (generateCSS envA scssP cssP (initSt fsBad)).1.fs cssP =
      readFileContent (initSt fsBad).fs cssP ∧
    (generateCSS envA scssP cssP (initSt fsBad)).1.pending = (initSt fsBad).pending :=
  c2_syntax_error_no_write envA scssP cssP (initSt fsBad) "bad(" (by decide) (by decide)

/-- C8: re-running the compile with the source content unchanged writes
byte-identical output: both runs leave exactly the compiler's output for
that source at the output path. -/
theorem c8_recompile_byte_identical (env : Env) (fs : FS) (scss css : Path) (src out : String)
    (hne : scss ≠ css)
    (h1 : readFileContent fs scss = some src)
    (h2 : env.render src = some out)
    (h3 : dirExists fs (dirname css) = true) :
    readFileContent (drain env 1 (generateCSS env scss css (initSt fs)).1).fs css = some out ∧
    readFileContent
      (drain env 1 (generateCSS env scss css
        (initSt (drain env 1 (generateCSS env scss css (initSt fs)).1).fs)).1).fs css =
      some out := by
  obtain ⟨-, hb, -⟩ := compile_drain_spec env fs scss css src out h1 h2 h3
  constructor
  · rw [hb]
    exact readFileContent_write_self fs css out
  · have h1b : readFileContent (writeFileContent fs css out) scss = some src := by
      rw [readFileContent_write_ne fs scss css out hne]
      exact h1
    have h3b : dirExists (writeFileContent fs css out) (dirname css) = true := by
      rw [dirExists_write]
      exact h3
    obtain ⟨-, hb2, -⟩ :=
      compile_drain_spec env (writeFileContent fs css out) scss css src out h1b h2 h3b
    rw [hb, hb2]
    exact readFileContent_write_self _ css out

/-- Witness for C8 at a concrete valid stylesheet. -/
theorem c8_recompile_byte_identical_w :
    readFileContent (drain envA 1 (generateCSS envA scssP cssP (initSt fsA)).1).fs cssP =
      some "body color red" ∧
    readFileContent
      (drain envA 1 (generateCSS envA scssP cssP
        (initSt (drain envA 1 (generateCSS envA scssP cssP (initSt fsA)).1).fs)).1).fs cssP =
      some "body color red" :=
  c8_recompile_byte_identical envA fsA scssP cssP "body color red" "body color red"
    (by decide) (by decide) (by decide) (by decide)

/-- C3 (refuted on the code): with the output directory initially missing,
the startup path calls `generateCSS` unconditionally while the `fs.mkdir` is
still pending, so `fs.writeFile` is invoked (the write is attempted) with
the parent directory absent — and if the event loop completes the pending
write before the pending mkdir (index 1 before index 0, an ordering Node
permits), the physical write itself runs with the parent missing and fails.
The intended invariant — parent exists before every write — is violated. -/
theorem c3_write_attempted_without_parent_dir :
    Ev.writeSubmitted cssP false ∈ (sassWatch envA scssP cssP (initSt fsB)).1.log ∧
    Ev.writeExec cssP false ∈
      (runActs envA [Act.run 1] (sassWatch envA scssP cssP (initSt fsB)).1).log ∧
    (runActs envA [Act.run 1] (sassWatch envA scssP cssP (initSt fsB)).1).crashed =
      some "writeErr" := by
  decide

/-- C4 (refuted on the code): when the output directory is missing at
startup, two compile calls happen before any change notification (the
unconditional one plus the one from the mkdir callback); with the directory
present there is exactly one. -/
theorem c4_two_startup_compiles_when_dir_missing :
    compileCallsOf (drain envA 4 (sassWatch envA scssP cssP (initSt fsB)).1).log =
      [(scssP, cssP), (scssP, cssP)] ∧
    compileCallsOf (drain envA 2 (sassWatch envA scssP cssP (initSt fsA)).1).log =
      [(scssP, cssP)] := by
  decide

/-- C5 counterexample: a failing write does not propagate out of the invoked
function.  `generateCSS` returns with no exception (`none`), and the write
error surfaces only later, as an uncaught exception in the completion
callback that crashes the event loop. -/
theorem c5_write_error_not_raised_to_caller :
    (generateCSS envA scssP cssP (initSt fsB)).2 = none ∧
    (drain envA 1 (generateCSS envA scssP cssP (initSt fsB)).1).crashed = some "writeErr" := by
  decide

/-- C5 amended: every mkdir failure and every write failure is re-thrown
from its asynchronous completion callback, becoming a fatal uncaught
exception (never swallowed) — but surfacing at the event loop, not out of
the function that submitted the operation. -/
theorem c5_failures_thrown_in_callbacks (env : Env) (s : St) (d scss css : Path) (c : String) :
    (env.mkdirOk = false →
      (execOp env (AsyncOp.mkdirOp d scss css) s).crashed = some "mkdirErr") ∧
    (dirExists s.fs (dirname css) = false →
      (execOp env (AsyncOp.writeOp css c) s).crashed = some "writeErr") := by
  constructor
  · intro hm
    simp [execOp, hm]
  · intro hd
    simp [execOp, hd]

/-- Witness for the amended C5: a concrete failing mkdir and a concrete
failing write, each crashing the loop with the re-thrown error. -/
theorem c5_failures_thrown_in_callbacks_w :
    (execOp envNoMkdir (AsyncOp.mkdirOp ["dist"] scssP cssP) (initSt fsB)).crashed =
      some "mkdirErr" ∧
    (execOp envA (AsyncOp.writeOp cssP "x") (initSt fsB)).crashed = some "writeErr" :=
  ⟨(c5_failures_thrown_in_callbacks envNoMkdir (initSt fsB) ["dist"] scssP cssP "x").1 rfl,
   (c5_failures_thrown_in_callbacks envA (initSt fsB) ["dist"] scssP cssP "x").2 (by decide)⟩

/-- Completing a pending mkdir (when the operating system lets it succeed)
creates the directory and all its missing ancestors, whatever the callback
then does. -/
theorem execOp_mkdir_dirs (env : Env) (d2 a b : Path) (s : St) (h : env.mkdirOk = true) :
    (execOp env (AsyncOp.mkdirOp d2 a b) s).fs.dirs = initSegs d2 ++ s.fs.dirs := by
  simp only [execOp]
  rw [h, if_pos rfl]
  cases hr : renderSync env s.fs a with
  | error e =>
    rw [generateCSS_error env a b
      { s with
          fs := { s.fs with dirs := initSegs d2 ++ s.fs.dirs },
          log := s.log ++ [Ev.dirCreated] } e hr]
  | ok c =>
    rw [generateCSS_ok env a b
      { s with
          fs := { s.fs with dirs := initSegs d2 ++ s.fs.dirs },
          log := s.log ++ [Ev.dirCreated] } c hr]

/-- The state right after the synchronous startup phase when the output
directory is missing and the source renders: the mkdir was submitted first,
then the unconditional compile submitted a write, and the watcher is
active. -/
theorem sassWatch_missing_spec (env : Env) (fs : FS) (scss css : Path) (src out : String)
    (h1 : readFileContent fs scss = some src)
    (h2 : env.render src = some out)
    (h4 : dirExists fs (dirname css) = false) :
    (sassWatch env scss css (initSt fs)).1 =
      { fs := fs,
        pending := [AsyncOp.mkdirOp (dirname css) scss css, AsyncOp.writeOp css out],
        log := [Ev.dirCreating (dirname css), Ev.compileCall scss css,
                Ev.writeSubmitted css false, Ev.watchSubscribed (dirname scss)],
        watcher := some (scss, css),
        crashed := none } := by
  have hr : renderSync env fs scss = Except.ok out := by
    unfold renderSync
    rw [h1]
    show (match env.render src with
      | none => Except.error "Invalid CSS"
      | some css => Except.ok css) = Except.ok out
    rw [h2]
  have hg := generateCSS_ok env scss css
    { fs := fs, pending := [AsyncOp.mkdirOp (dirname css) scss css],
      log := [Ev.dirCreating (dirname css)], watcher := none, crashed := none } out hr
  unfold sassWatch
  simp only [initSt, h4, Bool.false_eq_true, if_false, List.nil_append]
  rw [hg]
  simp [h4]

/-- C6: if the output directory is missing when the module function is
invoked (and the source renders, so the synchronous phase does not throw,
and the operating system lets mkdir succeed), then once the event loop has
processed the pending operations in submission order, the directory and
every missing ancestor exist. -/
theorem c6_missing_dir_created (env : Env) (fs : FS) (scss css : Path) (src out : String)
    (n : Nat)
    (h1 : readFileContent fs scss = some src)
    (h2 : env.render src = some out)
    (h3 : env.mkdirOk = true)
    (h4 : dirExists fs (dirname css) = false) :
    ∀ d ∈ initSegs (dirname css),
      d ∈ (drain env (n + 1) (sassWatch env scss css (initSt fs)).1).fs.dirs := by
  intro d hd
  show d ∈ (drain env n (stepAct env (Act.run 0) (sassWatch env scss css (initSt fs)).1)).fs.dirs
  apply dirs_mono_drain env n
  rw [sassWatch_missing_spec env fs scss css src out h1 h2 h4]
  show d ∈ (execOp env (AsyncOp.mkdirOp (dirname css) scss css)
    { fs := fs, pending := [AsyncOp.writeOp css out],
      log := [Ev.dirCreating (dirname css), Ev.compileCall scss css,
              Ev.writeSubmitted css false, Ev.watchSubscribed (dirname scss)],
      watcher := some (scss, css), crashed := none }).fs.dirs
  rw [execOp_mkdir_dirs env (dirname css) scss css _ h3]
  exact List.mem_append.mpr (Or.inl hd)

/-- Witness for C6: the missing `dist/` directory exists after the startup
work has drained. -/
theorem c6_missing_dir_created_w :
    ["dist"] ∈ (drain envA 1 (sassWatch envA scssP cssP (initSt fsB)).1).fs.dirs :=
  c6_missing_dir_created envA fsB scssP cssP "body color red" "body color red" 0
    (by decide) (by decide) rfl (by decide) ["dist"] (by decide)

/-- C7: delivering a change notification to a live watcher — whatever the
event type and whatever the filename — triggers exactly one additional
compile call, and it is a full compile of the root source path the callback
closes over, not of the file named in the event. -/
theorem c7_change_event_one_root_compile (env : Env) (s : St) (scss css : Path)
    (t fn : String)
    (h1 : s.crashed = none)
    (h2 : s.watcher = some (scss, css)) :
    compileCallsOf (stepAct env (Act.deliver t fn) s).log =
      compileCallsOf s.log ++ [(scss, css)] := by
  have hcr : s.crashed.isSome = false := by rw [h1]; rfl
  simp only [stepAct, hcr, Bool.false_eq_true, if_false, h2]
  cases hr : renderSync env s.fs scss with
  | error e =>
    rw [generateCSS_error env scss css
      { s with log := s.log ++ [Ev.changeLogged (dirname scss) fn],
               watcher := some (scss, css) } e hr]
    show compileCallsOf ((s.log ++ [Ev.changeLogged (dirname scss) fn]) ++
      [Ev.compileCall scss css]) = compileCallsOf s.log ++ [(scss, css)]
    rw [compileCallsOf_append, compileCallsOf_append]
    simp [compileCallsOf]
  | ok c =>
    rw [generateCSS_ok env scss css
      { s with log := s.log ++ [Ev.changeLogged (dirname scss) fn],
               watcher := some (scss, css) } c hr]
    show compileCallsOf ((s.log ++ [Ev.changeLogged (dirname scss) fn]) ++
      [Ev.compileCall scss css, Ev.writeSubmitted css (dirExists s.fs (dirname css))]) =
      compileCallsOf s.log ++ [(scss, css)]
    rw [compileCallsOf_append, compileCallsOf_append]
    simp [compileCallsOf]

/-- A live post-startup watcher state over a source whose content no longer
renders (the file was edited to a syntax error). -/
def stW : St :=
  { fs := fsBad, pending := [], log := [], watcher := some (scssP, cssP), crashed := none }

/-- A state whose event loop has already crashed. -/
def stC : St :=
  { fs := fsA, pending := [], log := [], watcher := some (scssP, cssP),
    crashed := some "writeErr" }

/-- Witness for C7 at a concrete live watcher state. -/
theorem c7_change_event_one_root_compile_w :
    compileCallsOf (stepAct envA (Act.deliver "change" "x.scss") stW).log =
      compileCallsOf stW.log ++ [(scssP, cssP)] :=
  c7_change_event_one_root_compile envA stW scssP cssP "change" "x.scss" rfl rfl

/-- C9 counterexample: after a successful startup, the watched source is
edited to a syntax error; the next change notification triggers a compile
that throws, the exception is uncaught, and the event loop crashes.  The
following change notification leaves the state entirely unchanged: no
further compile is ever triggered, refuting the claim that the watcher keeps
working after a compile failure. -/
theorem c9_watcher_not_alive_after_error :
    (runActs envA [Act.run 0, Act.extWrite scssP "bad(",
        Act.deliver "change" "styles.scss"]
      (sassWatch envA scssP cssP (initSt fsA)).1).crashed = some "Invalid CSS" ∧
    stepAct envA (Act.deliver "change" "styles.scss")
        (runActs envA [Act.run 0, Act.extWrite scssP "bad(",
            Act.deliver "change" "styles.scss"]
          (sassWatch envA scssP cssP (initSt fsA)).1) =
      runActs envA [Act.run 0, Act.extWrite scssP "bad(",
          Act.deliver "change" "styles.scss"]
        (sassWatch envA scssP cssP (initSt fsA)).1 := by
  decide

/-- C9 amended: a compile error inside the watch callback is an uncaught
exception that halts the event loop; once crashed, a change notification
does nothing at all (in particular it triggers no compile). -/
theorem c9_crash_halts_event_processing (env : Env) (s : St) (scss css : Path)
    (t fn : String) (e : String) :
    (s.crashed = none → s.watcher = some (scss, css) →
      renderSync env s.fs scss = Except.error e →
      (stepAct env (Act.deliver t fn) s).crashed = some e) ∧
    (s.crashed.isSome = true → stepAct env (Act.deliver t fn) s = s) := by
  constructor
  · intro h1 h2 hr
    have hcr : s.crashed.isSome = false := by rw [h1]; rfl
    simp only [stepAct, hcr, Bool.false_eq_true, if_false, h2]
    rw [generateCSS_error env scss css
      { s with log := s.log ++ [Ev.changeLogged (dirname scss) fn],
               watcher := some (scss, css) } e hr]
  · intro h
    simp [stepAct, h]

/-- Witness for the amended C9: a concrete crashing delivery and a concrete
ignored delivery. -/
theorem c9_crash_halts_event_processing_w :
    (stepAct envA (Act.deliver "change" "s.scss") stW).crashed = some "Invalid CSS" ∧
    stepAct envA (Act.deliver "change" "s.scss") stC = stC :=
  ⟨(c9_crash_halts_event_processing envA stW scssP cssP "change" "s.scss" "Invalid CSS").1
      rfl rfl rfl,
   (c9_crash_halts_event_processing envA stC scssP cssP "change" "s.scss" "x").2 rfl⟩

/-! ### The frame property (C10) -/

/-- Frame invariant relative to the initial filesystem `fs` and the output
path `css`: every pending asynchronous operation is a write to `css`, the
watcher's callback (if any) writes to `css`, no directory was created or
removed, and no file except `css` differs from `fs`. -/
def FrameInv (fs : FS) (css : Path) (s : St) : Prop :=
  (∀ op ∈ s.pending, ∃ c, op = AsyncOp.writeOp css c) ∧
  (∀ a b, s.watcher = some (a, b) → b = css) ∧
  s.fs.dirs = fs.dirs ∧
  (∀ p, p ≠ css → readFileContent s.fs p = readFileContent fs p)

/-- When the output directory already exists, the startup phase submits no
mkdir and establishes the frame invariant. -/
theorem frameInv_start (env : Env) (fs : FS) (scss css : Path)
    (h3 : dirExists fs (dirname css) = true) :
    FrameInv fs css (sassWatch env scss css (initSt fs)).1 := by
  unfold sassWatch
  have h3b : dirExists (initSt fs).fs (dirname css) = true := h3
  rw [if_pos h3b]
  cases hr : renderSync env (initSt fs).fs scss with
  | error e =>
    rw [generateCSS_error env scss css (initSt fs) e hr]
    refine ⟨?_, ?_, rfl, fun p hp => rfl⟩
    · intro op hop
      simp [initSt] at hop
    · intro a b hab
      simp [initSt] at hab
  | ok c =>
    rw [generateCSS_ok env scss css (initSt fs) c hr]
    refine ⟨?_, ?_, rfl, fun p hp => rfl⟩
    · intro op hop
      simp [initSt] at hop
      exact ⟨c, hop⟩
    · intro a b hab
      simp [initSt] at hab
      exact hab.2.symm

/-- The frame invariant is preserved by every step of the component's own
process (completing a pending operation or delivering a change event). -/
theorem frameInv_step (env : Env) (fs : FS) (css : Path) (s : St) (a : Act)
    (hp : a.isProcess = true) (h : FrameInv fs css s) :
    FrameInv fs css (stepAct env a s) := by
  obtain ⟨hpend, hw, hdirs, hfiles⟩ := h
  cases a with
  | extWrite p c => cases hp
  | run i =>
    simp only [stepAct]
    split
    · exact ⟨hpend, hw, hdirs, hfiles⟩
    · split
      · exact ⟨hpend, hw, hdirs, hfiles⟩
      next op hop =>
        obtain ⟨c, rfl⟩ := hpend op (List.getElem?_mem hop)
        have herase : ∀ op2 ∈ s.pending.eraseIdx i, ∃ c2, op2 = AsyncOp.writeOp css c2 :=
          fun op2 hop2 => hpend op2 (List.eraseIdx_subset s.pending i hop2)
        simp only [execOp]
        split
        · refine ⟨herase, hw, ?_, ?_⟩
          · show (writeFileContent s.fs css c).dirs = fs.dirs
            rw [writeFileContent_dirs]
            exact hdirs
          · intro p hpne
            show readFileContent (writeFileContent s.fs css c) p = readFileContent fs p
            rw [readFileContent_write_ne s.fs p css c hpne]
            exact hfiles p hpne
        · exact ⟨herase, hw, hdirs, hfiles⟩
  | deliver t fn =>
    simp only [stepAct]
    split
    · exact ⟨hpend, hw, hdirs, hfiles⟩
    · split
      · exact ⟨hpend, hw, hdirs, hfiles⟩
      next a2 b2 hwat =>
        have hb2 : b2 = css := hw a2 b2 hwat
        rw [hb2]
        cases hr : renderSync env s.fs a2 with
        | error e =>
          rw [generateCSS_error env a2 css
            { s with log := s.log ++ [Ev.changeLogged (dirname a2) fn] } e hr]
          exact ⟨hpend, hw, hdirs, hfiles⟩
        | ok c =>
          rw [generateCSS_ok env a2 css
            { s with log := s.log ++ [Ev.changeLogged (dirname a2) fn] } c hr]
          refine ⟨?_, hw, hdirs, hfiles⟩
          intro op hop
          rcases List.mem_append.mp hop with hin | hin
          · exact hpend op hin
          · exact ⟨c, List.mem_singleton.mp hin⟩

/-- The frame invariant is preserved by any sequence of process steps. -/
theorem frameInv_runActs (env : Env) (fs : FS) (css : Path) (acts : List Act) (s : St)
    (hp : ∀ a ∈ acts, a.isProcess = true) (h : FrameInv fs css s) :
    FrameInv fs css (runActs env acts s) := by
  induction acts generalizing s with
  | nil => exact h
  | cons a t ih =>
    exact ih (stepAct env a s) (fun x hx => hp x (List.mem_cons_of_mem a hx))
      (frameInv_step env fs css s a (hp a (List.mem_cons_self a t)) h)

/-- C10: when the output directory already exists at invocation, no
directory is ever created or removed, and the only filesystem path the
component ever writes is the output path: every other file reads back
exactly as in the initial filesystem, and every operation it ever has in
flight is a write to the output path. -/
theorem c10_frame_only_output_written (env : Env) (fs : FS) (scss css : Path)
    (acts : List Act)
    (h3 : dirExists fs (dirname css) = true)
    (hp : ∀ a ∈ acts, a.isProcess = true) :
    (runActs env acts (sassWatch env scss css (initSt fs)).1).fs.dirs = fs.dirs ∧
    (∀ p, p ≠ css →
      readFileContent (runActs env acts (sassWatch env scss css (initSt fs)).1).fs p =
        readFileContent fs p) ∧
    (∀ op ∈ (runActs env acts (sassWatch env scss css (initSt fs)).1).pending,
      ∃ c, op = AsyncOp.writeOp css c) := by
  have h := frameInv_runActs env fs css acts (sassWatch env scss css (initSt fs)).1 hp
    (frameInv_start env fs scss css h3)
  exact ⟨h.2.2.1, h.2.2.2, h.1⟩

/-- Witness for C10: a concrete run (startup compile, its write, a change
event, its write) leaves the directories and the source file untouched. -/
theorem c10_frame_only_output_written_w :
    (runActs envA [Act.run 0, Act.deliver "change" "a.scss", Act.run 0]
        (sassWatch envA scssP cssP (initSt fsA)).1).fs.dirs = fsA.dirs ∧
    readFileContent (runActs envA [Act.run 0, Act.deliver "change" "a.scss", Act.run 0]
        (sassWatch envA scssP cssP (initSt fsA)).1).fs scssP =
      readFileContent fsA scssP := by
  have h := c10_frame_only_output_written envA fsA scssP cssP
    [Act.run 0, Act.deliver "change" "a.scss", Act.run 0] (by decide) (by decide)
  exact ⟨h.1, h.2.1 scssP (by decide)⟩

end SassWatch
